import Mathlib

/-!
Shallow embedding of `src/bot.py` (a Telegram catalog bot): the relational
store operations, the per-user conversation state machine of `handle_text`
and `handle_photo`, and the notification fan-out.

Conventions of the embedding:
* the database is an explicit `DB` value threaded through every operation;
* store-access failures are modelled by explicit `Bool` failure flags on the
  operations whose error behaviour the spec talks about (`is_user_banned`,
  `get_notification_status`, `save_product`), and by a per-recipient failure
  function for message delivery;
* Python's in-place mutation of `user_state[user_id]` becomes an
  `Option ConvState` in / `Option ConvState` out (absence = idle);
* a Python exception that escapes the handler (leaving all state untouched)
  is modelled by the `crashed` flag of the result;
* replies sent to the acting user are collected as a list of strings.
-/

namespace Bot

/-- Python `str.strip()`: drop leading and trailing whitespace.  Implemented
on the character list so that it reduces in the kernel (`String.trim` is
built on `Substring` loops that do not). -/
def pyStrip (s : String) : String :=
  ⟨List.reverse (List.dropWhile Char.isWhitespace (List.reverse (List.dropWhile Char.isWhitespace s.data)))⟩

/-- Lexicographic `≤` on character lists, by code point. -/
def strLeAux : List Char → List Char → Bool
  | [], _ => true
  | _ :: _, [] => false
  | a :: as, b :: bs =>
    if a.toNat < b.toNat then true
    else if b.toNat < a.toNat then false
    else strLeAux as bs

/-- Lexicographic `≤` on strings (the `ORDER BY name` collation of the model). -/
def strLe (a b : String) : Bool := strLeAux a.data b.data

/-- Lexicographic `<` on strings. -/
def strLt (a b : String) : Bool := strLe a b && !(a == b)

/-- Python `str.isdigit()` restricted to ASCII digits: non-empty and all digits. -/
def isDigitStr (s : String) : Bool := !s.data.isEmpty && s.data.all Char.isDigit

/-- Python `int(...)` on a digit string. -/
def strToNat (s : String) : Nat := s.data.foldl (fun n c => n * 10 + (c.toNat - 48)) 0

/-- A row of the `users` table: `user_id`, `notifications_enabled`, `is_banned`. -/
structure UserRow where
  user_id : Int
  notifications_enabled : Bool
  is_banned : Bool
deriving DecidableEq

/-- A row of the `products` table. -/
structure Product where
  id : Nat
  user_id : Int
  user_name : String
  product_name : String
  photo_file_id : Option String
  rating : String
  created_at : Nat
  category_id : Nat
deriving DecidableEq

/-- The relational store: `categories(id, name)`, `users`, `products`,
plus the SERIAL counters for the two generated primary keys. -/
structure DB where
  categories : List (Nat × String)
  users : List UserRow
  products : List Product
  nextCat : Nat
  nextProd : Nat
deriving DecidableEq

/-- One entry of the global `user_state` dict: the `step` tag plus the
step-scoped fields the Python code stashes in the same dict.  The two
shapes of cached product lists (4-tuples from
`get_all_products_with_categories`, 5-tuples from `get_user_products`)
are kept in separate fields. -/
structure ConvState where
  step : String
  mode : Option String := none
  category_id : Option Nat := none
  product_id : Option Nat := none
  product_name : Option String := none
  photo_file_id : Option String := none
  users : List (Int × String) := []
  products : List (Nat × String × String × Nat) := []
  products_edit : List (Nat × String × String × Nat × Option String) := []
  categories : List (Nat × String) := []
deriving DecidableEq

/-- `is_user_banned`: admin is never banned; a store error degrades to
`false`; otherwise the stored flag (default `false` when no row). -/
def is_user_banned (admin : Int) (storeFail : Bool) (db : DB) (uid : Int) : Bool :=
  if uid = admin then false
  else if storeFail then false
  else
    match db.users.find? (fun r => r.user_id == uid) with
    | some r => r.is_banned
    | none => false

/-- `ensure_user_exists`: `INSERT ... ON CONFLICT DO NOTHING` with
`notifications_enabled = TRUE` (and `is_banned` defaulting to `FALSE`). -/
def ensure_user_exists (db : DB) (uid : Int) : DB :=
  if db.users.any (fun r => r.user_id == uid) then db
  else { db with users := db.users ++ [⟨uid, true, false⟩] }

/-- `get_notification_status`: read; on a missing row insert the default
`TRUE` row and return `True`; a store error degrades to `True`. -/
def get_notification_status (storeFail : Bool) (db : DB) (uid : Int) : Bool × DB :=
  if storeFail then (true, db)
  else
    match db.users.find? (fun r => r.user_id == uid) with
    | some r => (r.notifications_enabled, db)
    | none => (true, { db with users := db.users ++ [⟨uid, true, false⟩] })

/-- `INSERT ... ON CONFLICT (user_id) DO UPDATE SET notifications_enabled = b`
(on a fresh insert `is_banned` defaults to `FALSE`). -/
def upsertNotif (us : List UserRow) (uid : Int) (b : Bool) : List UserRow :=
  if us.any (fun r => r.user_id == uid) then
    us.map (fun r => if r.user_id == uid then { r with notifications_enabled := b } else r)
  else us ++ [⟨uid, b, false⟩]

/-- `INSERT ... ON CONFLICT (user_id) DO UPDATE SET is_banned = b`
(on a fresh insert `notifications_enabled` defaults to `TRUE`). -/
def upsertBanned (us : List UserRow) (uid : Int) (b : Bool) : List UserRow :=
  if us.any (fun r => r.user_id == uid) then
    us.map (fun r => if r.user_id == uid then { r with is_banned := b } else r)
  else us ++ [⟨uid, true, b⟩]

/-- `toggle_notifications`: read (or create) the current value, flip it,
upsert, and return the new value.  A failing upsert is logged and swallowed
by the Python code, so the returned value is the flipped one either way. -/
def toggle_notifications (readFail writeFail : Bool) (db : DB) (uid : Int) : Bool × DB :=
  let p := get_notification_status readFail db uid
  let new_status := !p.1
  let db2 := if writeFail then p.2 else { p.2 with users := upsertNotif p.2.users uid new_status }
  (new_status, db2)

/-- `get_subscribers`: user ids with `notifications_enabled = TRUE`,
optionally excluding one id. -/
def get_subscribers (db : DB) (exclude_user_id : Option Int) : List Int :=
  match exclude_user_id with
  | some e => (db.users.filter (fun r => r.notifications_enabled && r.user_id != e)).map (fun r => r.user_id)
  | none => (db.users.filter (fun r => r.notifications_enabled)).map (fun r => r.user_id)

/-- `get_categories`: `SELECT id, name FROM categories ORDER BY name`. -/
def get_categories (db : DB) : List (Nat × String) :=
  db.categories.insertionSort (fun a b => strLe a.2 b.2 = true)

/-- `add_category`: reject reserved names (after stripping); otherwise
`INSERT ... ON CONFLICT (name) DO NOTHING` followed by a `SELECT id` of the
(raw) name; returns the resolved id. -/
def add_category (db : DB) (name : String) : Option Nat × DB :=
  if pyStrip name = "Назад" ∨ pyStrip name = "Другое" then (none, db)
  else
    let fresh := !db.categories.any (fun c => c.2 == name)
    let cats := if fresh then db.categories ++ [(db.nextCat, name)] else db.categories
    let db1 := { db with categories := cats, nextCat := if fresh then db.nextCat + 1 else db.nextCat }
    match cats.find? (fun c => c.2 == name) with
    | some c => (some c.1, db1)
    | none => (none, db1)

/-- `save_product`: unconditional insert; generated id and `created_at`
come from the `nextProd` counter.  A store error is logged and swallowed:
the database is left unchanged and no signal reaches the caller. -/
def save_product (storeFail : Bool) (db : DB) (uid : Int) (user_name : String)
    (category_id : Nat) (product_name : String) (rating : String)
    (photo_file_id : Option String) : DB :=
  if storeFail then db
  else
    { db with
      products := db.products ++
        [⟨db.nextProd, uid, user_name, product_name, photo_file_id, rating, db.nextProd, category_id⟩],
      nextProd := db.nextProd + 1 }

/-- `get_products_by_category_and_rating`: matching products, newest first. -/
def get_products_by_category_and_rating (db : DB) (category_id : Nat) (rating : String) :
    List Product :=
  (db.products.filter (fun p => p.category_id == category_id && p.rating == rating)).insertionSort
    (fun a b => b.created_at ≤ a.created_at)

/-- `get_all_products_with_categories`: join with categories, ordered by
category name then product name; rows are `(id, product_name, cat_name, created_at)`. -/
def get_all_products_with_categories (db : DB) : List (Nat × String × String × Nat) :=
  (db.products.filterMap (fun p =>
      (db.categories.find? (fun c => c.1 == p.category_id)).map
        (fun c => (p.id, p.product_name, c.2, p.created_at)))).insertionSort
    (fun a b => (strLt a.2.2.1 b.2.2.1 || (a.2.2.1 == b.2.2.1 && strLe a.2.1 b.2.1)) = true)

/-- `get_user_products`: the user's products joined with category names,
newest first; rows are `(id, product_name, cat_name, created_at, photo)`. -/
def get_user_products (db : DB) (uid : Int) : List (Nat × String × String × Nat × Option String) :=
  ((db.products.filter (fun p => p.user_id == uid)).filterMap (fun p =>
      (db.categories.find? (fun c => c.1 == p.category_id)).map
        (fun c => (p.id, p.product_name, c.2, p.created_at, p.photo_file_id)))).insertionSort
    (fun a b => b.2.2.2.1 ≤ a.2.2.2.1)

/-- `get_all_users`: one row per user id ordered by id, with a best-effort
display name taken from the user's products (placeholder when none). -/
def get_all_users (db : DB) : List (Int × String) :=
  (db.users.insertionSort (fun a b => a.user_id ≤ b.user_id)).map (fun r =>
    (r.user_id,
      match db.products.find? (fun p => p.user_id == r.user_id) with
      | some p => p.user_name
      | none => "Неизвестно"))

/-- `update_category_name`. -/
def update_category_name (db : DB) (category_id : Nat) (new_name : String) : DB :=
  { db with categories := db.categories.map (fun c => if c.1 == category_id then (c.1, new_name) else c) }

/-- `move_product_to_category`. -/
def move_product_to_category (db : DB) (product_id : Nat) (new_category_id : Nat) : DB :=
  { db with products := db.products.map (fun p => if p.id == product_id then { p with category_id := new_category_id } else p) }

/-- `delete_product`. -/
def delete_product (db : DB) (product_id : Nat) : DB :=
  { db with products := db.products.filter (fun p => !(p.id == product_id)) }

/-- Failure injection for the effectful parts of a message handling step:
whether the product-save store call fails, and which recipients of the
notification fan-out fail to receive their message. -/
structure Env where
  saveFail : Bool := false
  sendFail : Int → Bool := fun _ => false

/-- The observable outcome of handling one incoming message: the user's new
conversation state (`none` = idle), the new database, the texts replied to
the acting user, the notification fan-out (ids attempted, pairs actually
delivered), and whether the Python handler escaped with an exception
(leaving conversation state and database untouched). -/
structure TResult where
  state : Option ConvState
  db : DB
  replies : List String
  attempted : List Int := []
  sent : List (Int × String) := []
  crashed : Bool := false
deriving DecidableEq

/-- The main-menu button labels that force-clear the conversation state
before being reinterpreted (line 651 of `bot.py`). -/
def main_menu_triggers : List String :=
  ["➕   Добавить товар", "✅   Покупать", "❌   Не покупать", "🔔", "🔕", "я Лена"]

/-- Numbered list rendering `i. entry` used by the selection prompts. -/
def numberedLines (names : List String) : String :=
  String.intercalate "\n" (((List.range names.length).zip names).map
    (fun x => toString (x.1 + 1) ++ ". " ++ x.2))

/-- `format_category_list`: categories ordered by name with product counts
filtered by the mode (`recommend` counts `Отлично`, `avoid` counts `Плохо`,
otherwise all products). -/
def format_category_list (db : DB) (mode : Option String) : String :=
  let cats := get_categories db
  let ratingFilter : Product → Bool :=
    match mode with
    | some "recommend" => fun p => p.rating == "Отлично"
    | some "avoid" => fun p => p.rating == "Плохо"
    | _ => fun _ => true
  if cats.isEmpty then "Нет категорий."
  else
    "Выберите категорию:\n" ++ String.intercalate "\n"
      (((List.range cats.length).zip cats).map (fun x =>
        toString (x.1 + 1) ++ ". " ++ x.2.2 ++ " — [" ++
          toString (db.products.countP (fun p => p.category_id == x.2.1 && ratingFilter p)) ++ "]"))

/-- The reply of `help_user_command` (sent for the `❔   Справка` button). -/
def help_user_text : String :=
  "🔸 Как пользоваться приложением?\n\n" ++
  "Бот работает по принципу \x27запрос-ответ\x27 посредством отправки команд в чат, либо нажатия кнопки в меню, которая отправит команду за Вас\n" ++
  "* Если хотите добавить новый товар, нажмите \x27Добавить товар\x27, выберите категорию, (если подходящая категория отсутствует, нажмите \x27Другое\x27, после чего введите название категории и отправьте боту), далее необходимо прикрепить фото продукта с описанием, либо просто название и отправить. Затем выберите оценку\n" ++
  "* Если хотите ознакомиться с хорошими товарами - нажмите \x27Покупать\x27, затем выберите интересующую категорию. Отобразиться список продуктов, под некоторым из них будет значок фотоаппарата - при нажатии на него бот пришлет фото продукта с описанием\n" ++
  "* Если хотите ознакомиться с плохими товарами - - нажмите \x27Не покупать\x27, затем выберите интересующую категорию. Отобразиться список продуктов, под некоторым из них будет значок фотоаппарата - при нажатии на него бот пришлет фото продукта с описанием\n\n" ++
  "Если во время работы в боте исчезли кнопки - \x27достать\x27 их можно, нажав на значок квадрата с четырьмя точками(кружками) внутри. Находится он в строке ввода сообщения\n\n" ++
  "🛠️ Команды:\n\n" ++
  "/change_cat — изменить название категории\n" ++
  "/change_list — переместить товар в другую категорию\n" ++
  "/edit_product — изменить свой товар\n" ++
  "/del_position — удалить товар из списка\n\n"

/-- Delete the conversation state and show the main menu (`Выберите действие:`). -/
def clear_to_menu (db : DB) : TResult :=
  { state := none, db := db, replies := ["Выберите действие:"] }

/-- `handle_text`, step `selecting_user_to_delete` (lines 676-698): a valid
selection deletes the target user's products and row; every exit — valid,
out of range, or non-numeric — deletes the conversation state. -/
def step_selecting_user_to_delete (cs : ConvState) (text : String) (db : DB) : TResult :=
  if isDigitStr text then
    let idx := strToNat text
    if 1 ≤ idx ∧ idx ≤ cs.users.length then
      let target := (cs.users.getD (idx - 1) (0, "")).1
      { state := none,
        db := { db with
          products := db.products.filter (fun p => !(p.user_id == target)),
          users := db.users.filter (fun r => !(r.user_id == target)) },
        replies := ["Пользователь " ++ toString target ++ " удалён."] }
    else { state := none, db := db, replies := ["Неверный номер."] }
  else { state := none, db := db, replies := ["Введите номер пользователя."] }

/-- `handle_text`, step `selecting_category_to_rename` (lines 700-715): the
category list is re-fetched; a valid selection moves to
`entering_new_category_name`; invalid input re-prompts and keeps the state. -/
def step_selecting_category_to_rename (cs : ConvState) (text : String) (db : DB) : TResult :=
  let categories := get_categories db
  if isDigitStr text then
    let idx := strToNat text
    if 1 ≤ idx ∧ idx ≤ categories.length then
      let c := categories.getD (idx - 1) (0, "")
      { state := some { step := "entering_new_category_name", category_id := some c.1 },
        db := db,
        replies := ["Текущее название: " ++ c.2 ++ "\nВведите новое название:"] }
    else { state := some cs, db := db, replies := ["Неверный номер категории."] }
  else { state := some cs, db := db, replies := ["Введите номер категории."] }

/-- `handle_text`, step `selecting_user_to_ban` (lines 717-742): a valid
selection upserts `is_banned = TRUE`; every exit deletes the state. -/
def step_selecting_user_to_ban (cs : ConvState) (text : String) (db : DB) : TResult :=
  if isDigitStr text then
    let idx := strToNat text
    if 1 ≤ idx ∧ idx ≤ cs.users.length then
      let target := (cs.users.getD (idx - 1) (0, "")).1
      { state := none, db := { db with users := upsertBanned db.users target true },
        replies := ["Пользователь " ++ toString target ++ " забанен."] }
    else { state := none, db := db, replies := ["Неверный номер."] }
  else { state := none, db := db, replies := ["Введите номер пользователя."] }

/-- `handle_text`, step `selecting_user_to_unban` (lines 744-769): a valid
selection upserts `is_banned = FALSE`; every exit deletes the state. -/
def step_selecting_user_to_unban (cs : ConvState) (text : String) (db : DB) : TResult :=
  if isDigitStr text then
    let idx := strToNat text
    if 1 ≤ idx ∧ idx ≤ cs.users.length then
      let target := (cs.users.getD (idx - 1) (0, "")).1
      { state := none, db := { db with users := upsertBanned db.users target false },
        replies := ["Пользователь " ++ toString target ++ " разбанен."] }
    else { state := none, db := db, replies := ["Неверный номер."] }
  else { state := none, db := db, replies := ["Введите номер пользователя."] }

/-- `handle_text`, step `entering_new_category_name` (lines 771-780): a
non-empty text renames the category (`Назад` included — there is no Back
handling here); every exit deletes the state. -/
def step_entering_new_category_name (cs : ConvState) (text : String) (db : DB) : TResult :=
  let new_name := pyStrip text
  if new_name ≠ "" then
    { state := none, db := update_category_name db (cs.category_id.getD 0) new_name,
      replies := ["Категория переименована в: " ++ new_name] }
  else { state := none, db := db, replies := ["Название не может быть пустым."] }

/-- `handle_text`, step `selecting_product_to_move` (lines 782-806): a valid
selection over the cached product list moves to
`selecting_new_category_for_product` with a freshly fetched category list
(or aborts when there are no categories); invalid input re-prompts and
keeps the state. -/
def step_selecting_product_to_move (cs : ConvState) (text : String) (db : DB) : TResult :=
  if isDigitStr text then
    let idx := strToNat text
    if 1 ≤ idx ∧ idx ≤ cs.products.length then
      let product_id := (cs.products.getD (idx - 1) (0, "", "", 0)).1
      let cat_list := get_categories db
      if cat_list.isEmpty then
        { state := none, db := db, replies := ["Нет категорий для перемещения."] }
      else
        { state := some { step := "selecting_new_category_for_product",
                          product_id := some product_id, categories := cat_list },
          db := db,
          replies := ["Выберите новую категорию:\n" ++ numberedLines (cat_list.map (fun c => c.2))] }
    else { state := some cs, db := db, replies := ["Неверный номер товара."] }
  else { state := some cs, db := db, replies := ["Введите номер товара."] }

/-- `handle_text`, step `selecting_product_to_delete` (lines 808-822): a
valid selection deletes the product; every exit deletes the state. -/
def step_selecting_product_to_delete (cs : ConvState) (text : String) (db : DB) : TResult :=
  if isDigitStr text then
    let idx := strToNat text
    if 1 ≤ idx ∧ idx ≤ cs.products.length then
      let product_id := (cs.products.getD (idx - 1) (0, "", "", 0)).1
      { state := none, db := delete_product db product_id, replies := ["Товар удалён!"] }
    else { state := none, db := db, replies := ["Неверный номер товара."] }
  else { state := none, db := db, replies := ["Введите номер товара."] }

/-- `handle_text`, step `selecting_new_category_for_product` (lines 824-838):
a valid selection over the cached category list moves the product; every
exit deletes the state. -/
def step_selecting_new_category_for_product (cs : ConvState) (text : String) (db : DB) : TResult :=
  if isDigitStr text then
    let idx := strToNat text
    if 1 ≤ idx ∧ idx ≤ cs.categories.length then
      let new_cat_id := (cs.categories.getD (idx - 1) (0, "")).1
      { state := none, db := move_product_to_category db (cs.product_id.getD 0) new_cat_id,
        replies := ["Товар перемещён!"] }
    else { state := none, db := db, replies := ["Неверный номер категории."] }
  else { state := none, db := db, replies := ["Введите номер категории."] }

/-- `handle_text`, step `selecting_product_to_edit` (lines 840-865): `Назад`
cancels; a valid selection over the cached own-product list moves to
`choosing_edit_field`; invalid input re-prompts and keeps the state. -/
def step_selecting_product_to_edit (cs : ConvState) (text : String) (db : DB) : TResult :=
  if text = "Назад" then clear_to_menu db
  else if isDigitStr text then
    let idx := strToNat text
    if 1 ≤ idx ∧ idx ≤ cs.products_edit.length then
      let product_id := (cs.products_edit.getD (idx - 1) (0, "", "", 0, none)).1
      { state := some { step := "choosing_edit_field", product_id := some product_id },
        db := db, replies := ["Что вы хотите изменить?"] }
    else { state := some cs, db := db, replies := ["Неверный номер товара."] }
  else { state := some cs, db := db, replies := ["Введите номер товара."] }

/-- `handle_text`, step `choosing_edit_field` (lines 867-895): `Назад`
cancels; the two field choices move to the respective editing step; any
other text re-prompts and keeps the state. -/
def step_choosing_edit_field (cs : ConvState) (text : String) (db : DB) : TResult :=
  if text = "Назад" then clear_to_menu db
  else if text = "Изменить название" then
    { state := some { step := "editing_product_name", product_id := cs.product_id },
      db := db, replies := ["Введите новое название товара:"] }
  else if text = "Изменить фото" then
    { state := some { step := "editing_product_photo", product_id := cs.product_id },
      db := db, replies := ["Отправьте новое фото (можно без подписи):"] }
  else { state := some cs, db := db, replies := ["Пожалуйста, выберите действие."] }

/-- `handle_text`, step `editing_product_name` (lines 897-916): `Назад`
cancels; otherwise the text becomes the product's new name; every exit
deletes the state. -/
def step_editing_product_name (cs : ConvState) (text : String) (db : DB) : TResult :=
  if text = "Назад" then clear_to_menu db
  else
    { state := none,
      db := { db with products := db.products.map (fun p =>
          if p.id == cs.product_id.getD 0 then { p with product_name := pyStrip text } else p) },
      replies := ["✅ Название товара обновлено!"] }

/-- `handle_text`, step `adding_category` (lines 918-937): `Назад` cancels;
a non-empty name goes through `add_category` — a rejected (reserved) name
re-prompts keeping the state, an accepted one re-renders the category menu
in step `choosing_category_for_add`; an empty name re-prompts keeping the
state. -/
def step_adding_category (cs : ConvState) (text : String) (db : DB) : TResult :=
  if text = "Назад" then clear_to_menu db
  else if pyStrip text ≠ "" then
    let p := add_category db (pyStrip text)
    match p.1 with
    | none =>
      { state := some cs, db := p.2,
        replies := ["Недопустимое название категории. Попробуйте снова."] }
    | some _ =>
      { state := some { cs with step := "choosing_category_for_add", mode := some "add" },
        db := p.2, replies := [format_category_list p.2 none] }
  else
    { state := some cs, db := db,
      replies := ["Название категории не может быть пустым. Попробуйте снова:"] }

/-- `handle_text`, steps `choosing_category_for_add` / `choosing_category_for_view`
(lines 939-999): `Назад` cancels; a valid selection over the freshly
fetched category list either stashes the category and moves to
`awaiting_product_name` (mode `add`) or renders the product listing and
deletes the state (modes `recommend`/`avoid`); `Другое` in the add flow
moves to `adding_category`; everything else re-prompts keeping the state.
A missing `mode` would be a `KeyError` in Python — modelled by `crashed`. -/
def step_choosing_category (cs : ConvState) (text : String) (db : DB) : TResult :=
  if text = "Назад" then clear_to_menu db
  else
    let categories := get_categories db
    if isDigitStr text then
      let idx := strToNat text
      if 1 ≤ idx ∧ idx ≤ categories.length then
        let selected := (categories.getD (idx - 1) (0, "")).1
        match cs.mode with
        | none => { state := some cs, db := db, replies := [], crashed := true }
        | some mode =>
          if mode = "add" then
            { state := some { cs with category_id := some selected, step := "awaiting_product_name" },
              db := db, replies := ["Прикрепите фотографию и введите название товара:"] }
          else if mode = "recommend" ∨ mode = "avoid" then
            let rating := if mode = "recommend" then "Отлично" else "Плохо"
            let products := get_products_by_category_and_rating db selected rating
            let listing :=
              if products.isEmpty then
                ["В категории \x27" ++ (categories.getD (idx - 1) (0, "")).2 ++ "\x27 нет позиций."]
              else products.map (fun p =>
                "• " ++ p.product_name ++ " — " ++ toString p.created_at ++ " (" ++ p.user_name ++ ")")
            { state := none, db := db, replies := listing ++ ["Выберите действие:"] }
          else { state := some cs, db := db, replies := [] }
      else { state := some cs, db := db, replies := ["Неверный номер категории. Попробуйте снова."] }
    else if text = "Другое" ∧ cs.step = "choosing_category_for_add" then
      { state := some { step := "adding_category" }, db := db,
        replies := ["Введите название новой категории:"] }
    else
      { state := some cs, db := db,
        replies := ["Пожалуйста, выберите номер категории, \x27Другое\x27 или \x27Назад\x27."] }

/-- `handle_text`, step `awaiting_product_name` (lines 1001-1028): `Назад`
cancels; otherwise the text becomes the pending product name (keeping a
previously buffered photo, or recording the explicit absence of one) and
the step advances to `awaiting_rating`. -/
def step_awaiting_product_name (cs : ConvState) (text : String) (db : DB) : TResult :=
  if text = "Назад" then clear_to_menu db
  else
    let st' :=
      match cs.photo_file_id with
      | some _ => { cs with product_name := some text, step := "awaiting_rating" }
      | none => { cs with product_name := some text, photo_file_id := none, step := "awaiting_rating" }
    { state := some st', db := db, replies := ["Выберите оценку:"] }

/-- `handle_text`, step `editing_product_photo` (lines 1030-1049): `Назад`
cancels; any other *text* message reaches
`update.message.photo[-1].file_id`, which raises `IndexError` on a text
message (text updates are routed here, photo messages are routed to
`handle_photo`), so the handler crashes with state and store untouched. -/
def step_editing_product_photo (cs : ConvState) (text : String) (db : DB) : TResult :=
  if text = "Назад" then clear_to_menu db
  else { state := some cs, db := db, replies := [], crashed := true }

/-- `update.effective_user.full_name or "Неизвестно"`: Python `or` also
replaces an empty string by the placeholder. -/
def full_name_or (full_name : Option String) : String :=
  match full_name with
  | some s => if s = "" then "Неизвестно" else s
  | none => "Неизвестно"

/-- `SELECT name FROM categories WHERE id = ...` with the `Неизвестно`
fallback the handler uses when the lookup raises. -/
def category_name_of (db : DB) (category_id : Nat) : String :=
  match db.categories.find? (fun c => c.1 == category_id) with
  | some c => c.2
  | none => "Неизвестно"

/-- The text of the new-product notification sent to each subscriber. -/
def new_product_message (category_name product_name rating user_name : String) : String :=
  "🆕 Новый товар в категории «" ++ category_name ++ "»:\n• " ++ product_name ++
    " — " ++ rating ++ "\n(добавил: " ++ user_name ++ ")"

/-- `handle_text`, step `awaiting_rating` (lines 1051-1096): `Назад` cancels;
a valid rating saves the product (store errors swallowed by
`save_product`), then fans the notification out to all subscribers except
the author, each delivery attempted independently, and replies
`Товар сохранён!` unconditionally; a missing category id aborts with an
error message; any other text re-prompts.  Every exit deletes the state. -/
def step_awaiting_rating (env : Env) (uid : Int) (full_name : Option String)
    (cs : ConvState) (text : String) (db : DB) : TResult :=
  if text = "Назад" then clear_to_menu db
  else if text = "Отлично" ∨ text = "Плохо" then
    let product_name := cs.product_name.getD "Неизвестно"
    let user_name := full_name_or full_name
    let photo_file_id := cs.photo_file_id
    if cs.category_id.getD 0 = 0 then
      { state := none, db := db, replies := ["Ошибка: категория не выбрана. Начните заново."] }
    else
      let category_id := cs.category_id.getD 0
      let db1 := save_product env.saveFail db uid user_name category_id product_name text photo_file_id
      let category_name := category_name_of db1 category_id
      let subscribers := get_subscribers db1 (some uid)
      let msg := new_product_message category_name product_name text user_name
      { state := none, db := db1, replies := ["Товар сохранён!"],
        attempted := subscribers,
        sent := (subscribers.filter (fun s => !env.sendFail s)).map (fun s => (s, msg)) }
  else
    { state := none, db := db,
      replies := ["Пожалуйста, выберите \x27Отлично\x27, \x27Плохо\x27 или \x27Назад\x27."] }

/-- The main-menu section of `handle_text` (lines 1098-1126), reached when
no step branch fired. -/
def main_menu_branch (text : String) (st : Option ConvState) (db : DB) : TResult :=
  if text = "я Лена" then { state := st, db := db, replies := ["Бесишь. Не пиши мне."] }
  else if text = "❔   Справка" then { state := st, db := db, replies := [help_user_text] }
  else if text = "➕   Добавить товар" then
    { state := some { step := "choosing_category_for_add", mode := some "add" },
      db := db, replies := [format_category_list db none] }
  else if text = "✅   Покупать" then
    { state := some { step := "choosing_category_for_view", mode := some "recommend" },
      db := db, replies := [format_category_list db (some "recommend")] }
  else if text = "❌   Не покупать" then
    { state := some { step := "choosing_category_for_view", mode := some "avoid" },
      db := db, replies := [format_category_list db (some "avoid")] }
  else { state := st, db := db, replies := ["Выберите действие:"] }

/-- The step dispatch of `handle_text`: the admin steps share a `Назад`
pre-check (lines 667-674), then each step branch fires on its `step` tag;
with no conversation state (or an unknown tag) the main-menu section runs. -/
def handle_text_step (env : Env) (uid : Int) (full_name : Option String)
    (text : String) (st : Option ConvState) (db : DB) : TResult :=
  match st with
  | none => main_menu_branch text none db
  | some cs =>
    if (cs.step = "selecting_user_to_delete" ∨ cs.step = "selecting_user_to_ban" ∨
        cs.step = "selecting_user_to_unban") ∧ text = "Назад" then clear_to_menu db
    else if cs.step = "selecting_user_to_delete" then step_selecting_user_to_delete cs text db
    else if cs.step = "selecting_category_to_rename" then step_selecting_category_to_rename cs text db
    else if cs.step = "selecting_user_to_ban" then step_selecting_user_to_ban cs text db
    else if cs.step = "selecting_user_to_unban" then step_selecting_user_to_unban cs text db
    else if cs.step = "entering_new_category_name" then step_entering_new_category_name cs text db
    else if cs.step = "selecting_product_to_move" then step_selecting_product_to_move cs text db
    else if cs.step = "selecting_product_to_delete" then step_selecting_product_to_delete cs text db
    else if cs.step = "selecting_new_category_for_product" then
      step_selecting_new_category_for_product cs text db
    else if cs.step = "selecting_product_to_edit" then step_selecting_product_to_edit cs text db
    else if cs.step = "choosing_edit_field" then step_choosing_edit_field cs text db
    else if cs.step = "editing_product_name" then step_editing_product_name cs text db
    else if cs.step = "adding_category" then step_adding_category cs text db
    else if cs.step = "choosing_category_for_add" ∨ cs.step = "choosing_category_for_view" then
      step_choosing_category cs text db
    else if cs.step = "awaiting_product_name" then step_awaiting_product_name cs text db
    else if cs.step = "editing_product_photo" then step_editing_product_photo cs text db
    else if cs.step = "awaiting_rating" then step_awaiting_rating env uid full_name cs text db
    else main_menu_branch text (some cs) db

/-- `handle_text` (lines 638-1126): strip the text; refuse banned users;
ensure the user row; force-clear the state on a main-menu trigger; handle
the notification toggle; then dispatch on the conversation step. -/
def handle_text (admin : Int) (env : Env) (uid : Int) (full_name : Option String)
    (raw : String) (st0 : Option ConvState) (db0 : DB) : TResult :=
  let text := pyStrip raw
  if is_user_banned admin false db0 uid && uid != admin then
    { state := st0, db := db0, replies := ["❌ Доступ запрещён."] }
  else
    let db := ensure_user_exists db0 uid
    let st := if main_menu_triggers.contains text then none else st0
    if text = "🔔" ∨ text = "🔕" then
      let p := toggle_notifications false false db uid
      { state := st, db := p.2,
        replies := [(if p.1 then "🔔" else "🔕") ++ " Уведомления " ++
          (if p.1 then "включены" else "отключены") ++ "."] }
    else handle_text_step env uid full_name text st db

/-- `handle_photo` (lines 1131-1169): refuse banned users; ensure the user
row; in step `awaiting_product_name` a caption-less photo is buffered into
the state without changing the step, and a captioned photo stashes both
name and photo and advances to `awaiting_rating`; in *every* other
situation (including step `editing_product_photo`) the photo is ignored
with `Пожалуйста, используйте кнопки меню.`. -/
def handle_photo (admin : Int) (uid : Int) (photo_file_id : String) (caption : Option String)
    (st0 : Option ConvState) (db0 : DB) : TResult :=
  if is_user_banned admin false db0 uid && uid != admin then
    { state := st0, db := db0, replies := ["❌ Доступ запрещён."] }
  else
    let db := ensure_user_exists db0 uid
    match st0 with
    | some cs =>
      if cs.step = "awaiting_product_name" then
        if caption.getD "" = "" then
          { state := some { cs with photo_file_id := some photo_file_id }, db := db,
            replies := ["Пожалуйста, укажите название товара (добавьте подпись к фото)."] }
        else
          let cs' := { cs with product_name := some (pyStrip (caption.getD "")),
                               photo_file_id := some photo_file_id, step := "awaiting_rating" }
          { state := some cs', db := db, replies := ["Выберите оценку:"] }
      else { state := some cs, db := db, replies := ["Пожалуйста, используйте кнопки меню."] }
    | none => { state := none, db := db, replies := ["Пожалуйста, используйте кнопки меню."] }

/-! ## Helper lemmas -/

theorem categories_ensure (db : DB) (uid : Int) :
    (ensure_user_exists db uid).categories = db.categories := by
  unfold ensure_user_exists; split <;> rfl

theorem products_ensure (db : DB) (uid : Int) :
    (ensure_user_exists db uid).products = db.products := by
  unfold ensure_user_exists; split <;> rfl

theorem get_categories_ensure (db : DB) (uid : Int) :
    get_categories (ensure_user_exists db uid) = get_categories db := by
  unfold get_categories; rw [categories_ensure]

theorem ne_of_contains_false {l : List String} {t a : String}
    (h : l.contains t = false) (hm : l.contains a = true) : t ≠ a := by
  intro e; rw [e, hm] at h; cases h

theorem find?_setNotif (us : List UserRow) (uid : Int) (b : Bool) :
    (us.map (fun r => if r.user_id == uid then { r with notifications_enabled := b } else r)).find?
        (fun r => r.user_id == uid)
      = (us.find? (fun r => r.user_id == uid)).map
          (fun r => { r with notifications_enabled := b }) := by
  induction us with
  | nil => rfl
  | cons a t ih =>
    rw [List.map_cons]
    by_cases h : a.user_id = uid
    · have hb : (a.user_id == uid) = true := beq_iff_eq.mpr h
      have h1 : (if (a.user_id == uid) = true then ({ a with notifications_enabled := b } : UserRow) else a)
          = { a with notifications_enabled := b } := by rw [hb]; rfl
      rw [h1, List.find?_cons_of_pos (p := fun r : UserRow => r.user_id == uid) _
          (show (({ a with notifications_enabled := b } : UserRow).user_id == uid) = true from hb),
        List.find?_cons_of_pos (p := fun r : UserRow => r.user_id == uid) _ hb]
      rfl
    · have hb : (a.user_id == uid) = false := beq_eq_false_iff_ne.mpr h
      have h1 : (if (a.user_id == uid) = true then ({ a with notifications_enabled := b } : UserRow) else a)
          = a := by rw [hb]; rfl
      rw [h1, List.find?_cons_of_neg (p := fun r : UserRow => r.user_id == uid) _ (by simp [hb]),
        List.find?_cons_of_neg (p := fun r : UserRow => r.user_id == uid) _ (by simp [hb]), ih]

theorem find?_upsertNotif_notif (us : List UserRow) (uid : Int) (b : Bool) :
    ((upsertNotif us uid b).find? (fun r => r.user_id == uid)).map
        (fun r => r.notifications_enabled) = some b := by
  unfold upsertNotif
  by_cases hany : us.any (fun r => r.user_id == uid) = true
  · rw [if_pos hany, find?_setNotif]
    obtain ⟨r, hr, hpr⟩ := List.any_eq_true.mp hany
    cases hf : us.find? (fun r => r.user_id == uid) with
    | none => exact absurd ((List.find?_eq_none.mp hf) r hr) (by simp [hpr])
    | some r2 => rfl
  · rw [if_neg hany, List.find?_append]
    have hnone : us.find? (fun r => r.user_id == uid) = none :=
      List.find?_eq_none.mpr (fun x hx hpx => hany (List.any_eq_true.mpr ⟨x, hx, hpx⟩))
    rw [hnone]
    simp

/-- The notification preference currently recorded for `uid` (the default
`true` when the user has no row), as `get_notification_status` reports it. -/
def notifStatus (db : DB) (uid : Int) : Bool := (get_notification_status false db uid).1

theorem notifStatus_eq (db : DB) (uid : Int) :
    notifStatus db uid
      = ((db.users.find? (fun r => r.user_id == uid)).map
          (fun r => r.notifications_enabled)).getD true := by
  unfold notifStatus get_notification_status
  cases hf : db.users.find? (fun r => r.user_id == uid) <;> simp [hf]

theorem notifStatus_upsertNotif (db : DB) (uid : Int) (b : Bool) :
    notifStatus { db with users := upsertNotif db.users uid b } uid = b := by
  rw [notifStatus_eq,
    show ({ db with users := upsertNotif db.users uid b } : DB).users
        = upsertNotif db.users uid b from rfl,
    find?_upsertNotif_notif]
  rfl

theorem toggle_spec (db : DB) (uid : Int) :
    (toggle_notifications false false db uid).1 = !(notifStatus db uid) ∧
    notifStatus (toggle_notifications false false db uid).2 uid = !(notifStatus db uid) := by
  refine ⟨rfl, ?_⟩
  exact notifStatus_upsertNotif (get_notification_status false db uid).2 uid _

/-- Number of category rows carrying a given name. -/
def countName (cats : List (Nat × String)) (name : String) : Nat :=
  cats.countP (fun c => c.2 == name)

/-! ## Claim theorems -/

/-- Empty store (fresh SERIAL counters). -/
def dbEmpty : DB := ⟨[], [], [], 1, 1⟩

/-- Store with one category `Снеки`. -/
def dbSnacks : DB := ⟨[(1, "Снеки")], [], [], 2, 1⟩

/-- Claim C4: for a non-reserved name (with at most one existing row of that
name, as the `UNIQUE` constraint guarantees), `add_category` returns a
resolved id, `get_categories` then contains exactly one entry with that
name, and calling `add_category` again returns the same id and leaves the
store unchanged — so any number of repeated calls behave like one. -/
theorem add_category_idempotent (db : DB) (name : String)
    (hres : ¬(pyStrip name = "Назад" ∨ pyStrip name = "Другое"))
    (huniq : countName db.categories name ≤ 1) :
    ∃ i, (add_category db name).1 = some i ∧
      countName (get_categories (add_category db name).2) name = 1 ∧
      add_category (add_category db name).2 name = (some i, (add_category db name).2) := by
  have hperm : ∀ d : DB, countName (get_categories d) name = countName d.categories name := by
    intro d
    exact (List.perm_insertionSort (fun a b => strLe a.2 b.2 = true) d.categories).countP_eq _
  by_cases hany : db.categories.any (fun c => c.2 == name) = true
  · obtain ⟨c0, hc0, hpc0⟩ := List.any_eq_true.mp hany
    cases hf : db.categories.find? (fun c => c.2 == name) with
    | none => exact absurd ((List.find?_eq_none.mp hf) c0 hc0) (by simp [hpc0])
    | some c =>
      have hres1 : add_category db name = (some c.1, db) := by
        simp only [add_category, if_neg hres, hany, Bool.not_true]
        simp [hf]
      refine ⟨c.1, by rw [hres1], ?_, ?_⟩
      · rw [hres1, hperm]
        have hpos : 0 < countName db.categories name := List.countP_pos_iff.mpr ⟨c0, hc0, hpc0⟩
        exact le_antisymm huniq hpos
      · rw [hres1]
        exact hres1
  · have hany' : db.categories.any (fun c => c.2 == name) = false := by
      cases h2 : db.categories.any (fun c => c.2 == name) with
      | true => exact absurd h2 hany
      | false => rfl
    have hnone : db.categories.find? (fun c => c.2 == name) = none :=
      List.find?_eq_none.mpr (fun x hx hpx => hany (List.any_eq_true.mpr ⟨x, hx, hpx⟩))
    have hzero : countName db.categories name = 0 :=
      List.countP_eq_zero.mpr (fun x hx hpx => hany (List.any_eq_true.mpr ⟨x, hx, hpx⟩))
    have hres1 : add_category db name = (some db.nextCat,
        { db with categories := db.categories ++ [(db.nextCat, name)], nextCat := db.nextCat + 1 }) := by
      simp only [add_category, if_neg hres, hany', Bool.not_false]
      simp [List.find?_append, hnone]
    refine ⟨db.nextCat, by rw [hres1], ?_, ?_⟩
    · rw [hres1, hperm]
      show List.countP (fun c => c.2 == name) (db.categories ++ [(db.nextCat, name)]) = 1
      rw [List.countP_append]
      have : countName db.categories name = 0 := hzero
      unfold countName at this
      rw [this, List.countP_singleton]
      simp
    · rw [hres1]
      have hany2 : (db.categories ++ [(db.nextCat, name)]).any (fun c => c.2 == name) = true := by
        exact List.any_eq_true.mpr ⟨(db.nextCat, name), List.mem_append_right _ (by simp), by simp⟩
      have hf2 : (db.categories ++ [(db.nextCat, name)]).find? (fun c => c.2 == name)
          = some (db.nextCat, name) := by
        rw [List.find?_append, hnone]
        simp
      simp only [add_category, if_neg hres]
      simp [hany2, hf2]

/-- Witness for C4 at the concrete name `Снеки` over the empty store. -/
theorem add_category_idempotent_witness :
    ¬(pyStrip "Снеки" = "Назад" ∨ pyStrip "Снеки" = "Другое") ∧
    countName dbEmpty.categories "Снеки" ≤ 1 ∧
    (∃ i, (add_category dbEmpty "Снеки").1 = some i ∧
      countName (get_categories (add_category dbEmpty "Снеки").2) "Снеки" = 1 ∧
      add_category (add_category dbEmpty "Снеки").2 "Снеки"
        = (some i, (add_category dbEmpty "Снеки").2)) :=
  ⟨by decide, by decide, add_category_idempotent dbEmpty "Снеки" (by decide) (by decide)⟩

/-- Claim C5: for the administrator identity the ban check returns `false`
unconditionally — whatever the stored rows say and even when the store
access fails. -/
theorem is_user_banned_admin_always_false (admin : Int) (storeFail : Bool) (db : DB) :
    is_user_banned admin storeFail db admin = false := by
  simp [is_user_banned]

/-- Claim C9 counterexample: `add_category` does *not* reject the empty
name nor a whitespace-only name — both create a category row and return
its id (the reserved-name check `name.strip() in {"Назад", "Другое"}` is
the only validation the function performs). -/
theorem add_category_accepts_empty_name :
    (add_category dbEmpty "").1 = some 1 ∧
    (add_category dbEmpty "").2.categories = [(1, "")] ∧
    (add_category dbEmpty " ").1 = some 1 ∧
    (add_category dbEmpty " ").2.categories = [(1, " ")] := by decide

/-- Claim C9 (amended): `add_category` rejects exactly the reserved names
`Назад`/`Другое` (after stripping), returning `none` with the store
unchanged; empty or whitespace-only input never reaches `add_category` —
the add-category dialog step re-prompts on it itself; in the dialog,
entering `Другое` yields the invalid-name re-prompt with no category
created, while entering `Назад` cancels to the main menu (also creating
nothing). -/
theorem add_category_reserved_and_dialog (admin : Int) (env : Env) (uid : Int)
    (full_name : Option String) (db : DB) (cs : ConvState)
    (hstep : cs.step = "adding_category")
    (hban : is_user_banned admin false db uid = false) :
    (∀ d : DB, ∀ name : String,
        (pyStrip name = "Назад" ∨ pyStrip name = "Другое") → add_category d name = (none, d)) ∧
    ((handle_text admin env uid full_name "Другое" (some cs) db).state = some cs ∧
     (handle_text admin env uid full_name "Другое" (some cs) db).db.categories = db.categories ∧
     (handle_text admin env uid full_name "Другое" (some cs) db).replies
        = ["Недопустимое название категории. Попробуйте снова."]) ∧
    ((handle_text admin env uid full_name "   " (some cs) db).state = some cs ∧
     (handle_text admin env uid full_name "   " (some cs) db).db.categories = db.categories ∧
     (handle_text admin env uid full_name "   " (some cs) db).replies
        = ["Название категории не может быть пустым. Попробуйте снова:"]) ∧
    ((handle_text admin env uid full_name "Назад" (some cs) db).state = none ∧
     (handle_text admin env uid full_name "Назад" (some cs) db).db.categories = db.categories) := by
  have hrej : ∀ d : DB, add_category d "Другое" = (none, d) := by
    intro d
    unfold add_category
    rw [if_pos (Or.inr (by decide))]
  have hD : pyStrip "Другое" = "Другое" := by decide
  have hW : pyStrip "   " = "" := by decide
  have hWW : pyStrip "" = "" := by decide
  have hB : pyStrip "Назад" = "Назад" := by decide
  have hcontD : main_menu_triggers.contains "Другое" = false := by decide
  have hcontW : main_menu_triggers.contains "" = false := by decide
  have hcontB : main_menu_triggers.contains "Назад" = false := by decide
  have hmemD : ¬("Другое" ∈ main_menu_triggers) := by decide
  have hmemW : ¬(("" : String) ∈ main_menu_triggers) := by decide
  have hmemB : ¬("Назад" ∈ main_menu_triggers) := by decide
  refine ⟨fun d name h => by unfold add_category; rw [if_pos h], ?_, ?_, ?_⟩
  · simp [handle_text, handle_text_step, step_adding_category, hstep, hban, hD, hcontD, hmemD, hrej,
      categories_ensure]
  · simp [handle_text, handle_text_step, step_adding_category, hstep, hban, hW, hWW, hcontW, hmemW,
      categories_ensure]
  · simp [handle_text, handle_text_step, step_adding_category, clear_to_menu, hstep, hban, hB,
      hcontB, hmemB, categories_ensure]

/-- Witness for C9's amended dialog behaviour at a concrete state. -/
theorem add_category_reserved_and_dialog_witness :
    ({ step := "adding_category" } : ConvState).step = "adding_category" ∧
    is_user_banned 0 false dbSnacks 1 = false ∧
    ((handle_text 0 {} 1 none "Другое" (some { step := "adding_category" }) dbSnacks).state
        = some { step := "adding_category" } ∧
     (handle_text 0 {} 1 none "Другое" (some { step := "adding_category" }) dbSnacks).db.categories
        = dbSnacks.categories ∧
     (handle_text 0 {} 1 none "Другое" (some { step := "adding_category" }) dbSnacks).replies
        = ["Недопустимое название категории. Попробуйте снова."]) :=
  ⟨rfl, by decide,
    (add_category_reserved_and_dialog 0 {} 1 none dbSnacks { step := "adding_category" }
      rfl (by decide)).2.1⟩

/-- Claim C6: in step `awaiting_product_name`, a photo without a caption
only buffers the photo reference into the conversation state and
re-prompts for the name — the step stays `awaiting_product_name`. -/
theorem photo_without_caption_buffers (admin uid : Int) (photoId : String) (db : DB)
    (cs : ConvState)
    (hstep : cs.step = "awaiting_product_name")
    (hban : is_user_banned admin false db uid = false) :
    (handle_photo admin uid photoId none (some cs) db).state
        = some { cs with photo_file_id := some photoId } ∧
    ((handle_photo admin uid photoId none (some cs) db).state.map (fun c => c.step))
        = some "awaiting_product_name" ∧
    (handle_photo admin uid photoId none (some cs) db).replies
        = ["Пожалуйста, укажите название товара (добавьте подпись к фото)."] := by
  refine ⟨?_, ?_, ?_⟩ <;> simp [handle_photo, hstep, hban]

/-- Witness for C6 at a concrete state and store. -/
theorem photo_without_caption_buffers_witness :
    ({ step := "awaiting_product_name", category_id := some 1 } : ConvState).step
        = "awaiting_product_name" ∧
    is_user_banned 0 false dbSnacks 1 = false ∧
    ((handle_photo 0 1 "ph1" none
        (some { step := "awaiting_product_name", category_id := some 1 }) dbSnacks).state
      = some { step := "awaiting_product_name", category_id := some 1,
               photo_file_id := some "ph1" }) :=
  ⟨rfl, by decide,
    (photo_without_caption_buffers 0 1 "ph1" dbSnacks
      { step := "awaiting_product_name", category_id := some 1 } rfl (by decide)).1⟩

/-- The product-edit photo state and store used to exhibit claim C7's bug. -/
def editPhotoState : ConvState := { step := "editing_product_photo", product_id := some 1 }

/-- A store with one product (id 1) owned by user 1 with an old photo. -/
def dbEditPhoto : DB :=
  ⟨[(1, "Снеки")], [⟨1, true, false⟩],
   [⟨1, 1, "Вася", "Чипсы", some "old_photo", "Отлично", 0, 1⟩], 2, 2⟩

/-- Claim C7 (code bug): in step `editing_product_photo` a photo message is
answered with `Пожалуйста, используйте кнопки меню.` by `handle_photo`,
the product's photo reference is not touched and the state is not cleared
(the update code sits in the text handler, which a photo message never
reaches — and a plain text message there crashes on
`update.message.photo[-1]`, again changing nothing). -/
theorem edit_photo_never_updates :
    (handle_photo 0 1 "new_photo" none (some editPhotoState) dbEditPhoto).state
        = some editPhotoState ∧
    (handle_photo 0 1 "new_photo" none (some editPhotoState) dbEditPhoto).db.products
        = dbEditPhoto.products ∧
    (handle_photo 0 1 "new_photo" none (some editPhotoState) dbEditPhoto).replies
        = ["Пожалуйста, используйте кнопки меню."] ∧
    (handle_photo 0 1 "new_photo" (some "подпись") (some editPhotoState) dbEditPhoto).db.products
        = dbEditPhoto.products ∧
    (handle_text 0 {} 1 none "фото" (some editPhotoState) dbEditPhoto).crashed = true ∧
    (handle_text 0 {} 1 none "фото" (some editPhotoState) dbEditPhoto).state
        = some editPhotoState ∧
    (handle_text 0 {} 1 none "фото" (some editPhotoState) dbEditPhoto).db.products
        = dbEditPhoto.products := by decide

/-- The admin ban-selection state used for claim C1's counterexample. -/
def banSelState : ConvState := { step := "selecting_user_to_ban", users := [(5, "X")] }

/-- Claim C1 counterexample: in `selecting_user_to_ban` — a state expecting
a numeric selection, cited by the claim itself — the non-numeric input
`abc` produces the re-prompt but the conversation state is *deleted*
(reset to idle), not left unchanged. -/
theorem invalid_selection_clears_ban_state :
    (handle_text 0 {} 1 none "abc" (some banSelState) dbEmpty).state = none ∧
    (handle_text 0 {} 1 none "abc" (some banSelState) dbEmpty).replies
        = ["Введите номер пользователя."] := by decide

/-- An input that is not a valid 1-based selection into a list of `n`
items: non-numeric, zero, or beyond `n`. -/
def invalidSel (text : String) (n : Nat) : Prop :=
  isDigitStr text = false ∨ strToNat text = 0 ∨ n < strToNat text

/-- Claim C1 (amended): where a numeric selection is expected, invalid
(non-numeric or out-of-range) input always yields a re-prompt; the step
stays unchanged in `selecting_category_to_rename`,
`selecting_product_to_move`, `selecting_product_to_edit` and the two
`choosing_category` states, but in `selecting_user_to_delete`,
`selecting_user_to_ban`, `selecting_user_to_unban`,
`selecting_product_to_delete` and `selecting_new_category_for_product`
the conversation state is cleared to idle after the re-prompt, so the
user must restart the command instead of retrying in place. -/
theorem numeric_selection_invalid_input (admin : Int) (env : Env) (uid : Int)
    (full_name : Option String) (text : String) (db : DB) (cs : ConvState)
    (hban : is_user_banned admin false db uid = false)
    (htrig : ¬(text ∈ main_menu_triggers))
    (hstrip : pyStrip text = text)
    (hback : text ≠ "Назад") (hother : text ≠ "Другое") :
    (cs.step = "selecting_category_to_rename" → invalidSel text (get_categories db).length →
      (handle_text admin env uid full_name text (some cs) db).state = some cs ∧
      (handle_text admin env uid full_name text (some cs) db).replies ≠ []) ∧
    (cs.step = "selecting_product_to_move" → invalidSel text cs.products.length →
      (handle_text admin env uid full_name text (some cs) db).state = some cs ∧
      (handle_text admin env uid full_name text (some cs) db).replies ≠ []) ∧
    (cs.step = "selecting_product_to_edit" → invalidSel text cs.products_edit.length →
      (handle_text admin env uid full_name text (some cs) db).state = some cs ∧
      (handle_text admin env uid full_name text (some cs) db).replies ≠ []) ∧
    ((cs.step = "choosing_category_for_add" ∨ cs.step = "choosing_category_for_view") →
      invalidSel text (get_categories db).length →
      (handle_text admin env uid full_name text (some cs) db).state = some cs ∧
      (handle_text admin env uid full_name text (some cs) db).replies ≠ []) ∧
    (cs.step = "selecting_user_to_delete" → invalidSel text cs.users.length →
      (handle_text admin env uid full_name text (some cs) db).state = none ∧
      (handle_text admin env uid full_name text (some cs) db).replies ≠ []) ∧
    (cs.step = "selecting_user_to_ban" → invalidSel text cs.users.length →
      (handle_text admin env uid full_name text (some cs) db).state = none ∧
      (handle_text admin env uid full_name text (some cs) db).replies ≠ []) ∧
    (cs.step = "selecting_user_to_unban" → invalidSel text cs.users.length →
      (handle_text admin env uid full_name text (some cs) db).state = none ∧
      (handle_text admin env uid full_name text (some cs) db).replies ≠ []) ∧
    (cs.step = "selecting_product_to_delete" → invalidSel text cs.products.length →
      (handle_text admin env uid full_name text (some cs) db).state = none ∧
      (handle_text admin env uid full_name text (some cs) db).replies ≠ []) ∧
    (cs.step = "selecting_new_category_for_product" → invalidSel text cs.categories.length →
      (handle_text admin env uid full_name text (some cs) db).state = none ∧
      (handle_text admin env uid full_name text (some cs) db).replies ≠ []) := by
  have hdf : ∀ n : Nat, invalidSel text n → isDigitStr text = true →
      ¬(1 ≤ strToNat text ∧ strToNat text ≤ n) := by
    intro n hinv hd
    rcases hinv with h | h | h
    · rw [hd] at h; cases h
    · omega
    · omega
  have hsplit : ∀ n : Nat, invalidSel text n →
      isDigitStr text = false ∨
        (isDigitStr text = true ∧ ¬(1 ≤ strToNat text ∧ strToNat text ≤ n)) := by
    intro n hinv
    cases hd : isDigitStr text with
    | false => exact Or.inl rfl
    | true => exact Or.inr ⟨rfl, hdf n hinv hd⟩
  have hbell1 : text ≠ "🔔" := by rintro rfl; exact htrig (by decide)
  have hbell2 : text ≠ "🔕" := by rintro rfl; exact htrig (by decide)
  refine ⟨?_, ?_, ?_, ?_, ?_, ?_, ?_, ?_, ?_⟩
  · intro hstep hinv
    rcases hsplit _ hinv with hd | ⟨hd, hr⟩
    · simp [handle_text, handle_text_step, step_selecting_category_to_rename, hstep, hban, htrig, hstrip, hback, hother, hd, get_categories_ensure, hbell1, hbell2]
    · simp [handle_text, handle_text_step, step_selecting_category_to_rename, hstep, hban, htrig, hstrip, hback, hother, hd, hr, get_categories_ensure, hbell1, hbell2]
  · intro hstep hinv
    rcases hsplit _ hinv with hd | ⟨hd, hr⟩
    · simp [handle_text, handle_text_step, step_selecting_product_to_move, hstep, hban, htrig, hstrip, hback, hother, hd, hbell1, hbell2]
    · simp [handle_text, handle_text_step, step_selecting_product_to_move, hstep, hban, htrig, hstrip, hback, hother, hd, hr, hbell1, hbell2]
  · intro hstep hinv
    rcases hsplit _ hinv with hd | ⟨hd, hr⟩
    · simp [handle_text, handle_text_step, step_selecting_product_to_edit, hstep, hban, htrig, hstrip, hback, hother, hd, hbell1, hbell2]
    · simp [handle_text, handle_text_step, step_selecting_product_to_edit, hstep, hban, htrig, hstrip, hback, hother, hd, hr, hbell1, hbell2]
  · intro hstep hinv
    rcases hsplit _ hinv with hd | ⟨hd, hr⟩ <;> rcases hstep with hstep | hstep
    · simp [handle_text, handle_text_step, step_choosing_category, hstep, hban, htrig, hstrip, hback, hother, hd, get_categories_ensure, hbell1, hbell2]
    · simp [handle_text, handle_text_step, step_choosing_category, hstep, hban, htrig, hstrip, hback, hother, hd, get_categories_ensure, hbell1, hbell2]
    · simp [handle_text, handle_text_step, step_choosing_category, hstep, hban, htrig, hstrip, hback, hother, hd, hr, get_categories_ensure, hbell1, hbell2]
    · simp [handle_text, handle_text_step, step_choosing_category, hstep, hban, htrig, hstrip, hback, hother, hd, hr, get_categories_ensure, hbell1, hbell2]
  · intro hstep hinv
    rcases hsplit _ hinv with hd | ⟨hd, hr⟩
    · simp [handle_text, handle_text_step, step_selecting_user_to_delete, hstep, hban, htrig, hstrip, hback, hother, hd, hbell1, hbell2]
    · simp [handle_text, handle_text_step, step_selecting_user_to_delete, hstep, hban, htrig, hstrip, hback, hother, hd, hr, hbell1, hbell2]
  · intro hstep hinv
    rcases hsplit _ hinv with hd | ⟨hd, hr⟩
    · simp [handle_text, handle_text_step, step_selecting_user_to_ban, hstep, hban, htrig, hstrip, hback, hother, hd, hbell1, hbell2]
    · simp [handle_text, handle_text_step, step_selecting_user_to_ban, hstep, hban, htrig, hstrip, hback, hother, hd, hr, hbell1, hbell2]
  · intro hstep hinv
    rcases hsplit _ hinv with hd | ⟨hd, hr⟩
    · simp [handle_text, handle_text_step, step_selecting_user_to_unban, hstep, hban, htrig, hstrip, hback, hother, hd, hbell1, hbell2]
    · simp [handle_text, handle_text_step, step_selecting_user_to_unban, hstep, hban, htrig, hstrip, hback, hother, hd, hr, hbell1, hbell2]
  · intro hstep hinv
    rcases hsplit _ hinv with hd | ⟨hd, hr⟩
    · simp [handle_text, handle_text_step, step_selecting_product_to_delete, hstep, hban, htrig, hstrip, hback, hother, hd, hbell1, hbell2]
    · simp [handle_text, handle_text_step, step_selecting_product_to_delete, hstep, hban, htrig, hstrip, hback, hother, hd, hr, hbell1, hbell2]
  · intro hstep hinv
    rcases hsplit _ hinv with hd | ⟨hd, hr⟩
    · simp [handle_text, handle_text_step, step_selecting_new_category_for_product, hstep, hban, htrig, hstrip, hback, hother, hd, hbell1, hbell2]
    · simp [handle_text, handle_text_step, step_selecting_new_category_for_product, hstep, hban, htrig, hstrip, hback, hother, hd, hr, hbell1, hbell2]

/-- Witness for C1's amended theorem: the out-of-range input `7` in
`selecting_category_to_rename` re-prompts and keeps the step. -/
theorem numeric_selection_invalid_input_witness :
    is_user_banned 0 false dbSnacks 1 = false ∧
    ¬(("7" : String) ∈ main_menu_triggers) ∧
    pyStrip "7" = "7" ∧ ("7" : String) ≠ "Назад" ∧ ("7" : String) ≠ "Другое" ∧
    ({ step := "selecting_category_to_rename" } : ConvState).step
        = "selecting_category_to_rename" ∧
    invalidSel "7" (get_categories dbSnacks).length ∧
    ((handle_text 0 {} 1 none "7" (some { step := "selecting_category_to_rename" }) dbSnacks).state
        = some { step := "selecting_category_to_rename" } ∧
     (handle_text 0 {} 1 none "7"
        (some { step := "selecting_category_to_rename" }) dbSnacks).replies ≠ []) :=
  ⟨by decide, by decide, by decide, by decide, by decide, rfl,
    Or.inr (Or.inr (by decide)),
    (numeric_selection_invalid_input 0 {} 1 none "7" dbSnacks
        { step := "selecting_category_to_rename" } (by decide) (by decide) (by decide)
        (by decide) (by decide)).1 rfl (Or.inr (Or.inr (by decide)))⟩

/-- Claim C2 counterexample: in `selecting_category_to_rename` — one of the
states cited by the claim — `Назад` is handled as an invalid numeric
selection: the conversation state survives and the user is re-prompted,
instead of returning to idle. -/
theorem back_does_not_cancel_rename_selection :
    (handle_text 0 {} 1 none "Назад"
        (some { step := "selecting_category_to_rename" }) dbSnacks).state
      = some { step := "selecting_category_to_rename" } ∧
    (handle_text 0 {} 1 none "Назад"
        (some { step := "selecting_category_to_rename" }) dbSnacks).replies
      = ["Введите номер категории."] := by decide

/-- Claim C2 (amended): `Назад` deletes the conversation state and returns
to idle in every non-idle step *except* `selecting_category_to_rename` and
`selecting_product_to_move`, where it is treated as an invalid numeric
selection: the state is kept and the user is re-prompted.  (In
`entering_new_category_name` the state is cleared, but only after the text
`Назад` has been applied as the category's new name.) -/
theorem back_clears_state (admin : Int) (env : Env) (uid : Int) (full_name : Option String)
    (db : DB) (cs : ConvState)
    (hban : is_user_banned admin false db uid = false) :
    ((cs.step = "selecting_user_to_delete" ∨ cs.step = "selecting_user_to_ban" ∨
      cs.step = "selecting_user_to_unban" ∨ cs.step = "entering_new_category_name" ∨
      cs.step = "selecting_product_to_delete" ∨ cs.step = "selecting_new_category_for_product" ∨
      cs.step = "selecting_product_to_edit" ∨ cs.step = "choosing_edit_field" ∨
      cs.step = "editing_product_name" ∨ cs.step = "adding_category" ∨
      cs.step = "choosing_category_for_add" ∨ cs.step = "choosing_category_for_view" ∨
      cs.step = "awaiting_product_name" ∨ cs.step = "editing_product_photo" ∨
      cs.step = "awaiting_rating") →
      (handle_text admin env uid full_name "Назад" (some cs) db).state = none) ∧
    ((cs.step = "selecting_category_to_rename" ∨ cs.step = "selecting_product_to_move") →
      (handle_text admin env uid full_name "Назад" (some cs) db).state = some cs ∧
      (handle_text admin env uid full_name "Назад" (some cs) db).replies ≠ []) := by
  have hB : pyStrip "Назад" = "Назад" := by decide
  have hmB : ¬(("Назад" : String) ∈ main_menu_triggers) := by decide
  have hd : isDigitStr "Назад" = false := by decide
  constructor
  · rintro (h | h | h | h | h | h | h | h | h | h | h | h | h | h | h) <;>
      simp [handle_text, handle_text_step, clear_to_menu, hban, hB, hmB, hd, h,
        step_selecting_user_to_delete, step_selecting_user_to_ban, step_selecting_user_to_unban,
        step_entering_new_category_name, step_selecting_product_to_delete,
        step_selecting_new_category_for_product, step_selecting_product_to_edit,
        step_choosing_edit_field, step_editing_product_name, step_adding_category,
        step_choosing_category, step_awaiting_product_name, step_editing_product_photo,
        step_awaiting_rating]
  · rintro (h | h) <;>
      simp [handle_text, handle_text_step, clear_to_menu, hban, hB, hmB, hd, h,
        step_selecting_category_to_rename, step_selecting_product_to_move]

/-- Witness for C2's amended theorem: `Назад` in `awaiting_rating` clears
the state, and in `selecting_product_to_move` it keeps it. -/
theorem back_clears_state_witness :
    is_user_banned 0 false dbSnacks 1 = false ∧
    (handle_text 0 {} 1 none "Назад" (some { step := "awaiting_rating" }) dbSnacks).state
        = none ∧
    (handle_text 0 {} 1 none "Назад"
        (some { step := "selecting_product_to_move" }) dbSnacks).state
      = some { step := "selecting_product_to_move" } :=
  ⟨by decide,
    (back_clears_state 0 {} 1 none dbSnacks { step := "awaiting_rating" } (by decide)).1
      (by decide),
    ((back_clears_state 0 {} 1 none dbSnacks { step := "selecting_product_to_move" }
        (by decide)).2 (by decide)).1⟩

/-- Claim C3: a valid rating in `awaiting_rating` saves the product and
fans the notification out to exactly the users with notifications enabled
other than the author; every delivery is attempted independently — each
subscriber whose own delivery does not fail receives the message whatever
happens to the others — and the saved product stays in the store no matter
which deliveries fail. -/
theorem product_save_fanout (admin : Int) (env : Env) (uid : Int) (full_name : Option String)
    (text : String) (db : DB) (cs : ConvState) (c : Nat)
    (hstep : cs.step = "awaiting_rating")
    (hcid : cs.category_id = some c) (hc : c ≠ 0)
    (hrating : text = "Отлично" ∨ text = "Плохо")
    (hsave : env.saveFail = false)
    (hban : is_user_banned admin false db uid = false) :
    ∃ msg,
      (handle_text admin env uid full_name text (some cs) db).db.products
        = (ensure_user_exists db uid).products ++
          [⟨(ensure_user_exists db uid).nextProd, uid, full_name_or full_name,
            cs.product_name.getD "Неизвестно", cs.photo_file_id, text,
            (ensure_user_exists db uid).nextProd, c⟩] ∧
      (handle_text admin env uid full_name text (some cs) db).attempted
        = get_subscribers (handle_text admin env uid full_name text (some cs) db).db (some uid) ∧
      (handle_text admin env uid full_name text (some cs) db).sent
        = ((handle_text admin env uid full_name text (some cs) db).attempted.filter
            (fun s => !env.sendFail s)).map (fun s => (s, msg)) ∧
      (∀ s, s ∈ (handle_text admin env uid full_name text (some cs) db).attempted →
        env.sendFail s = false →
          (s, msg) ∈ (handle_text admin env uid full_name text (some cs) db).sent) ∧
      (handle_text admin env uid full_name text (some cs) db).replies = ["Товар сохранён!"] ∧
      (handle_text admin env uid full_name text (some cs) db).state = none := by
  have hmem : ∀ s, s ∈ (handle_text admin env uid full_name text (some cs) db).attempted →
      env.sendFail s = false →
      ∀ m, (handle_text admin env uid full_name text (some cs) db).sent
          = ((handle_text admin env uid full_name text (some cs) db).attempted.filter
              (fun x => !env.sendFail x)).map (fun x => (x, m)) →
      (s, m) ∈ (handle_text admin env uid full_name text (some cs) db).sent := by
    intro s hs hf m hrw
    rw [hrw]
    exact List.mem_map.mpr ⟨s, List.mem_filter.mpr ⟨hs, by simp [hf]⟩, rfl⟩
  rcases hrating with rfl | rfl
  · have hP : pyStrip "Отлично" = "Отлично" := by decide
    have hm : ¬(("Отлично" : String) ∈ main_menu_triggers) := by decide
    refine ⟨new_product_message (category_name_of (save_product env.saveFail
        (ensure_user_exists db uid) uid (full_name_or full_name) c
        (cs.product_name.getD "Неизвестно") "Отлично" cs.photo_file_id) c)
        (cs.product_name.getD "Неизвестно") "Отлично" (full_name_or full_name),
      ?_, ?_, ?_, ?_, ?_, ?_⟩
    · simp [handle_text, handle_text_step, step_awaiting_rating, save_product, hstep, hcid, hc,
        hsave, hban, hP, hm]
    · simp [handle_text, handle_text_step, step_awaiting_rating, hstep, hcid, hc,
        hsave, hban, hP, hm]
    · simp [handle_text, handle_text_step, step_awaiting_rating, hstep, hcid, hc,
        hsave, hban, hP, hm]
    · refine fun s hs hf => hmem s hs hf _ ?_
      simp [handle_text, handle_text_step, step_awaiting_rating, hstep, hcid, hc,
        hsave, hban, hP, hm]
    · simp [handle_text, handle_text_step, step_awaiting_rating, hstep, hcid, hc,
        hsave, hban, hP, hm]
    · simp [handle_text, handle_text_step, step_awaiting_rating, hstep, hcid, hc,
        hsave, hban, hP, hm]
  · have hP : pyStrip "Плохо" = "Плохо" := by decide
    have hm : ¬(("Плохо" : String) ∈ main_menu_triggers) := by decide
    refine ⟨new_product_message (category_name_of (save_product env.saveFail
        (ensure_user_exists db uid) uid (full_name_or full_name) c
        (cs.product_name.getD "Неизвестно") "Плохо" cs.photo_file_id) c)
        (cs.product_name.getD "Неизвестно") "Плохо" (full_name_or full_name),
      ?_, ?_, ?_, ?_, ?_, ?_⟩
    · simp [handle_text, handle_text_step, step_awaiting_rating, save_product, hstep, hcid, hc,
        hsave, hban, hP, hm]
    · simp [handle_text, handle_text_step, step_awaiting_rating, hstep, hcid, hc,
        hsave, hban, hP, hm]
    · simp [handle_text, handle_text_step, step_awaiting_rating, hstep, hcid, hc,
        hsave, hban, hP, hm]
    · refine fun s hs hf => hmem s hs hf _ ?_
      simp [handle_text, handle_text_step, step_awaiting_rating, hstep, hcid, hc,
        hsave, hban, hP, hm]
    · simp [handle_text, handle_text_step, step_awaiting_rating, hstep, hcid, hc,
        hsave, hban, hP, hm]
    · simp [handle_text, handle_text_step, step_awaiting_rating, hstep, hcid, hc,
        hsave, hban, hP, hm]

/-- The store used by the C3 witness: author 1, subscribers 2 and 3, user 4
with notifications off; delivery to subscriber 2 fails. -/
def dbFan : DB :=
  ⟨[(1, "Снеки")], [⟨1, true, false⟩, ⟨2, true, false⟩, ⟨3, true, false⟩, ⟨4, false, false⟩],
   [], 2, 1⟩

/-- The awaiting-rating state used by the C3 and C10 witnesses. -/
def ratingState : ConvState :=
  { step := "awaiting_rating", category_id := some 1, product_name := some "Чипсы" }

/-- Witness for C3 with a concrete failing recipient. -/
theorem product_save_fanout_witness :
    ratingState.step = "awaiting_rating" ∧ ratingState.category_id = some 1 ∧ (1 : Nat) ≠ 0 ∧
    (("Отлично" : String) = "Отлично" ∨ ("Отлично" : String) = "Плохо") ∧
    ({ sendFail := fun s => s == 2 } : Env).saveFail = false ∧
    is_user_banned 0 false dbFan 1 = false ∧
    (∃ msg,
      (handle_text 0 { sendFail := fun s => s == 2 } 1 (some "Вася") "Отлично"
          (some ratingState) dbFan).db.products
        = (ensure_user_exists dbFan 1).products ++
          [⟨(ensure_user_exists dbFan 1).nextProd, 1, full_name_or (some "Вася"),
            ratingState.product_name.getD "Неизвестно", ratingState.photo_file_id, "Отлично",
            (ensure_user_exists dbFan 1).nextProd, 1⟩] ∧
      (handle_text 0 { sendFail := fun s => s == 2 } 1 (some "Вася") "Отлично"
          (some ratingState) dbFan).attempted
        = get_subscribers (handle_text 0 { sendFail := fun s => s == 2 } 1 (some "Вася") "Отлично"
            (some ratingState) dbFan).db (some 1) ∧
      (handle_text 0 { sendFail := fun s => s == 2 } 1 (some "Вася") "Отлично"
          (some ratingState) dbFan).sent
        = ((handle_text 0 { sendFail := fun s => s == 2 } 1 (some "Вася") "Отлично"
            (some ratingState) dbFan).attempted.filter
              (fun s => !({ sendFail := fun s => s == 2 } : Env).sendFail s)).map
            (fun s => (s, msg)) ∧
      (∀ s, s ∈ (handle_text 0 { sendFail := fun s => s == 2 } 1 (some "Вася") "Отлично"
          (some ratingState) dbFan).attempted →
        ({ sendFail := fun s => s == 2 } : Env).sendFail s = false →
          (s, msg) ∈ (handle_text 0 { sendFail := fun s => s == 2 } 1 (some "Вася") "Отлично"
            (some ratingState) dbFan).sent) ∧
      (handle_text 0 { sendFail := fun s => s == 2 } 1 (some "Вася") "Отлично"
          (some ratingState) dbFan).replies = ["Товар сохранён!"] ∧
      (handle_text 0 { sendFail := fun s => s == 2 } 1 (some "Вася") "Отлично"
          (some ratingState) dbFan).state = none) :=
  ⟨rfl, rfl, by decide, Or.inl rfl, rfl, by decide,
    product_save_fanout 0 { sendFail := fun s => s == 2 } 1 (some "Вася") "Отлично" dbFan
      ratingState 1 rfl rfl (by decide) (Or.inl rfl) rfl (by decide)⟩

/-- The failure-injecting environment for claim C10. -/
def envSaveFail : Env := { saveFail := true }

/-- Claim C10 counterexample: a store failure inside `save_product` is
swallowed — the user is still told `Товар сохранён!` although nothing was
stored, contradicting "a product save that fails in the store is not
reported to the user as a success". -/
theorem failed_save_reported_as_success :
    (handle_text 0 envSaveFail 1 (some "Вася") "Отлично" (some ratingState) dbSnacks).replies
        = ["Товар сохранён!"] ∧
    (handle_text 0 envSaveFail 1 (some "Вася") "Отлично" (some ratingState) dbSnacks).db.products
        = [] := by decide

/-- Claim C10 (amended): store errors are degraded to safe defaults where
one exists — the ban check degrades to "not banned" and the notification
status to "enabled" — but an error during the product save is logged and
swallowed: the conversation state is cleared and the user is shown the
success message `Товар сохранён!` even though the store kept no product. -/
theorem store_errors_degraded (admin : Int) (env : Env) (uid : Int) (full_name : Option String)
    (text : String) (db : DB) (cs : ConvState) (c : Nat)
    (hstep : cs.step = "awaiting_rating")
    (hcid : cs.category_id = some c) (hc : c ≠ 0)
    (hrating : text = "Отлично" ∨ text = "Плохо")
    (hfail : env.saveFail = true)
    (hban : is_user_banned admin false db uid = false) :
    is_user_banned admin true db uid = false ∧
    get_notification_status true db uid = (true, db) ∧
    (handle_text admin env uid full_name text (some cs) db).replies = ["Товар сохранён!"] ∧
    (handle_text admin env uid full_name text (some cs) db).db.products = db.products ∧
    (handle_text admin env uid full_name text (some cs) db).state = none := by
  have hPo : pyStrip "Отлично" = "Отлично" := by decide
  have hmo : ¬(("Отлично" : String) ∈ main_menu_triggers) := by decide
  have hPp : pyStrip "Плохо" = "Плохо" := by decide
  have hmp : ¬(("Плохо" : String) ∈ main_menu_triggers) := by decide
  refine ⟨by simp [is_user_banned], rfl, ?_, ?_, ?_⟩ <;>
    rcases hrating with rfl | rfl <;>
      simp [handle_text, handle_text_step, step_awaiting_rating, save_product, hstep, hcid,
        hc, hfail, hban, products_ensure, hPo, hmo, hPp, hmp]

/-- Witness for C10's amended theorem at a concrete failing save. -/
theorem store_errors_degraded_witness :
    ratingState.step = "awaiting_rating" ∧ ratingState.category_id = some 1 ∧ (1 : Nat) ≠ 0 ∧
    (("Плохо" : String) = "Отлично" ∨ ("Плохо" : String) = "Плохо") ∧
    envSaveFail.saveFail = true ∧ is_user_banned 0 false dbSnacks 1 = false ∧
    (is_user_banned 0 true dbSnacks 1 = false ∧
     get_notification_status true dbSnacks 1 = (true, dbSnacks) ∧
     (handle_text 0 envSaveFail 1 (some "Вася") "Плохо" (some ratingState) dbSnacks).replies
        = ["Товар сохранён!"] ∧
     (handle_text 0 envSaveFail 1 (some "Вася") "Плохо" (some ratingState) dbSnacks).db.products
        = dbSnacks.products ∧
     (handle_text 0 envSaveFail 1 (some "Вася") "Плохо" (some ratingState) dbSnacks).state
        = none) :=
  ⟨rfl, rfl, by decide, Or.inr rfl, rfl, by decide,
    store_errors_degraded 0 envSaveFail 1 (some "Вася") "Плохо" dbSnacks ratingState 1
      rfl rfl (by decide) (Or.inr rfl) rfl (by decide)⟩

/-- Claim C8: toggling notifications twice restores the original stored
preference, and each call returns exactly the preference stored after it. -/
theorem toggle_notifications_twice (db : DB) (uid : Int) :
    (toggle_notifications false false db uid).1
        = notifStatus (toggle_notifications false false db uid).2 uid ∧
    (toggle_notifications false false (toggle_notifications false false db uid).2 uid).1
        = notifStatus
            (toggle_notifications false false (toggle_notifications false false db uid).2 uid).2 uid ∧
    notifStatus
        (toggle_notifications false false (toggle_notifications false false db uid).2 uid).2 uid
      = notifStatus db uid := by
  obtain ⟨h1, h2⟩ := toggle_spec db uid
  obtain ⟨h3, h4⟩ := toggle_spec (toggle_notifications false false db uid).2 uid
  refine ⟨h1.trans h2.symm, h3.trans h4.symm, ?_⟩
  rw [h4, h2, Bool.not_not]

end Bot
